import Mathlib

set_option maxHeartbeats 1000000
set_option maxRecDepth 8000

/-! Shallow embedding of the daily-generation analytics pipeline of
frontend-dashboard/src/pages/data.js.  JavaScript numbers are modelled as
rationals; the special values NaN and the two infinities, which matter for
the voltage-to-SOC mapper, are modelled by the JSNum type.  Timestamps are
integers (Unix seconds) and the wall clock new Date() is passed explicitly
as the parameter now, in Unix seconds (a UTC execution environment is
assumed, as the spec's Design Notes fix for determinism). -/

/-- JavaScript number: NaN, one of the two infinities, or a finite value
(modelled as a rational; negative zero is not distinguished — it plays no
role in the code under study). -/
inductive JSNum
  | nan
  | posInf
  | negInf
  | fin (q : ℚ)
  deriving DecidableEq

/-- JavaScript strict less-than: every comparison with NaN is false. -/
def jlt : JSNum → JSNum → Bool
  | JSNum.nan, _ => false
  | _, JSNum.nan => false
  | JSNum.fin a, JSNum.fin b => decide (a < b)
  | JSNum.posInf, _ => false
  | JSNum.negInf, JSNum.negInf => false
  | JSNum.negInf, _ => true
  | JSNum.fin _, JSNum.posInf => true
  | JSNum.fin _, JSNum.negInf => false

/-- JavaScript greater-or-equal: every comparison with NaN is false. -/
def jge : JSNum → JSNum → Bool
  | JSNum.nan, _ => false
  | _, JSNum.nan => false
  | JSNum.fin a, JSNum.fin b => decide (b ≤ a)
  | JSNum.posInf, _ => true
  | JSNum.negInf, JSNum.negInf => true
  | JSNum.negInf, _ => false
  | JSNum.fin _, JSNum.posInf => false
  | JSNum.fin _, JSNum.negInf => true

/-- JavaScript less-or-equal: every comparison with NaN is false. -/
def jle : JSNum → JSNum → Bool
  | JSNum.nan, _ => false
  | _, JSNum.nan => false
  | JSNum.fin a, JSNum.fin b => decide (a ≤ b)
  | JSNum.negInf, _ => true
  | JSNum.posInf, JSNum.posInf => true
  | JSNum.posInf, _ => false
  | JSNum.fin _, JSNum.posInf => true
  | JSNum.fin _, JSNum.negInf => false

/-- JavaScript addition on numbers. -/
def jadd : JSNum → JSNum → JSNum
  | JSNum.nan, _ => JSNum.nan
  | _, JSNum.nan => JSNum.nan
  | JSNum.fin a, JSNum.fin b => JSNum.fin (a + b)
  | JSNum.posInf, JSNum.negInf => JSNum.nan
  | JSNum.negInf, JSNum.posInf => JSNum.nan
  | JSNum.posInf, _ => JSNum.posInf
  | JSNum.negInf, _ => JSNum.negInf
  | _, JSNum.posInf => JSNum.posInf
  | _, JSNum.negInf => JSNum.negInf

/-- JavaScript subtraction on numbers. -/
def jsub : JSNum → JSNum → JSNum
  | JSNum.nan, _ => JSNum.nan
  | _, JSNum.nan => JSNum.nan
  | JSNum.fin a, JSNum.fin b => JSNum.fin (a - b)
  | JSNum.posInf, JSNum.posInf => JSNum.nan
  | JSNum.negInf, JSNum.negInf => JSNum.nan
  | JSNum.posInf, _ => JSNum.posInf
  | JSNum.negInf, _ => JSNum.negInf
  | _, JSNum.posInf => JSNum.negInf
  | _, JSNum.negInf => JSNum.posInf

/-- JavaScript multiplication on numbers. -/
def jmul : JSNum → JSNum → JSNum
  | JSNum.nan, _ => JSNum.nan
  | _, JSNum.nan => JSNum.nan
  | JSNum.fin a, JSNum.fin b => JSNum.fin (a * b)
  | JSNum.posInf, JSNum.posInf => JSNum.posInf
  | JSNum.posInf, JSNum.negInf => JSNum.negInf
  | JSNum.negInf, JSNum.posInf => JSNum.negInf
  | JSNum.negInf, JSNum.negInf => JSNum.posInf
  | JSNum.posInf, JSNum.fin b =>
      if b = 0 then JSNum.nan else if 0 < b then JSNum.posInf else JSNum.negInf
  | JSNum.negInf, JSNum.fin b =>
      if b = 0 then JSNum.nan else if 0 < b then JSNum.negInf else JSNum.posInf
  | JSNum.fin a, JSNum.posInf =>
      if a = 0 then JSNum.nan else if 0 < a then JSNum.posInf else JSNum.negInf
  | JSNum.fin a, JSNum.negInf =>
      if a = 0 then JSNum.nan else if 0 < a then JSNum.negInf else JSNum.posInf

/-- JavaScript division on numbers (sign of zero not distinguished). -/
def jdiv : JSNum → JSNum → JSNum
  | JSNum.nan, _ => JSNum.nan
  | _, JSNum.nan => JSNum.nan
  | JSNum.fin a, JSNum.fin b =>
      if b = 0 then (if a = 0 then JSNum.nan else if 0 < a then JSNum.posInf else JSNum.negInf)
      else JSNum.fin (a / b)
  | JSNum.posInf, JSNum.posInf => JSNum.nan
  | JSNum.posInf, JSNum.negInf => JSNum.nan
  | JSNum.negInf, JSNum.posInf => JSNum.nan
  | JSNum.negInf, JSNum.negInf => JSNum.nan
  | JSNum.posInf, JSNum.fin b => if b < 0 then JSNum.negInf else JSNum.posInf
  | JSNum.negInf, JSNum.fin b => if b < 0 then JSNum.posInf else JSNum.negInf
  | JSNum.fin _, JSNum.posInf => JSNum.fin 0
  | JSNum.fin _, JSNum.negInf => JSNum.fin 0

/-- Math.min of two numbers: NaN if either argument is NaN. -/
def jmin (a b : JSNum) : JSNum :=
  match a, b with
  | JSNum.nan, _ => JSNum.nan
  | _, JSNum.nan => JSNum.nan
  | x, y => if jlt x y then x else y

/-- Math.max of two numbers: NaN if either argument is NaN. -/
def jmax (a b : JSNum) : JSNum :=
  match a, b with
  | JSNum.nan, _ => JSNum.nan
  | _, JSNum.nan => JSNum.nan
  | x, y => if jlt y x then x else y

/-- The anchor table voltageMap of getBatterySOC: pairs (v, soc). -/
def voltageMap : List (ℚ × ℚ) :=
  [(11.6, 0), (11.8, 20), (12.1, 40), (12.2, 50), (12.4, 70), (12.7, 100)]

/-- The for-loop of getBatterySOC (i = 1 .. voltageMap.length - 1): the
first argument of the recursion is the pair voltageMap[i-1] (lower), the
list holds voltageMap[i] (upper) onwards.  The anchors are finite
constants, so they enter the JS arithmetic as fin values.  Falling off the
end of the loop returns 0 as in the source. -/
def interpLoopJS (voltage : JSNum) : ℚ × ℚ → List (ℚ × ℚ) → JSNum
  | _, [] => JSNum.fin 0
  | lower, (uv, us) :: rest =>
      if jlt voltage (JSNum.fin uv) then
        jmin (JSNum.fin 100) (jmax (JSNum.fin 0)
          (jadd (JSNum.fin lower.2)
            (jmul (jdiv (jsub voltage (JSNum.fin lower.1)) (JSNum.fin (uv - lower.1)))
              (JSNum.fin (us - lower.2)))))
      else interpLoopJS voltage (uv, us) rest

/-- getBatterySOC of data.js.  The argument is none when the JS value is
not of type number (typeof voltage !== 'number'); NaN and the infinities
ARE of type number and flow past that guard.  11.6 and 12.7 are
voltageMap's first and last anchor voltages, and the literals 0 and 100 on
the two guards are the literals returned by the source. -/
def getBatterySOC : Option JSNum → JSNum
  | none => JSNum.fin 0
  | some voltage =>
      if jge voltage (JSNum.fin 12.7) then JSNum.fin 100
      else if jle voltage (JSNum.fin 11.6) then JSNum.fin 0
      else interpLoopJS voltage (11.6, 0) voltageMap.tail

/-- Restriction of the interpolation loop to finite voltages, on plain
rationals (the bridge lemma relates it to interpLoopJS). -/
def interpLoop (voltage : ℚ) : ℚ × ℚ → List (ℚ × ℚ) → ℚ
  | _, [] => 0
  | lower, (uv, us) :: rest =>
      if voltage < uv then
        min 100 (max 0 (lower.2 + (voltage - lower.1) / (uv - lower.1) * (us - lower.2)))
      else interpLoop voltage (uv, us) rest

/-- Restriction of getBatterySOC to finite voltages, on plain rationals. -/
def socFin (voltage : ℚ) : ℚ :=
  if 12.7 ≤ voltage then 100
  else if voltage ≤ 11.6 then 0
  else interpLoop voltage (11.6, 0) voltageMap.tail

/-- Unclamped piecewise-linear interpolation used to reason about socFin:
on each bracketing segment it is the source's interpolation formula, and
extended linearly below 11.8 and above 12.4. -/
def socRaw (v : ℚ) : ℚ :=
  if v < 11.8 then 0 + (v - 11.6) / (11.8 - 11.6) * (20 - 0)
  else if v < 12.1 then 20 + (v - 11.8) / (12.1 - 11.8) * (40 - 20)
  else if v < 12.2 then 40 + (v - 12.1) / (12.2 - 12.1) * (50 - 40)
  else if v < 12.4 then 50 + (v - 12.2) / (12.4 - 12.2) * (70 - 50)
  else 70 + (v - 12.4) / (12.7 - 12.4) * (100 - 70)

/-- One telemetry record as stored in the realtime database; a field is
none when it is absent or not a number in the raw JSON. -/
structure TelemetryLog where
  timestamp : Option ℤ
  dc_power_w : Option ℚ
  dc_voltage_v : Option ℚ
  dc_current_ma : Option ℚ
  panel_temp_c : Option ℚ
  deriving DecidableEq

/-- Calendar date of a sample: new Date(t * 1000).toISOString() is UTC, so
the date is the floor of timestamp / 86400, i.e. days since the Unix
epoch (the getD 0 never fires on the post-filter path, where the
timestamp is known to be numeric). -/
def dateKey (log : TelemetryLog) : ℤ :=
  (log.timestamp.getD 0).fdiv 86400

/-- The filter at the top of processAnalyticsData: drop null entries and
entries whose timestamp is not a number, keep samples of the trailing
34-day range ending at now (startDate = subDays(endDate, 34)).  A kept
entry is returned without the Option wrapper, which the filter has just
discharged. -/
def relevantData (now : ℤ) (data : List (Option TelemetryLog)) : List TelemetryLog :=
  data.filterMap (fun e =>
    match e with
    | none => none
    | some log =>
        match log.timestamp with
        | none => none
        | some t => if now - 34 * 86400 ≤ t ∧ t ≤ now then some log else none)

/-- One step of the reduce building groupedByDate: push the sample onto
the group of its date if that key exists, otherwise append a fresh group
at the end (JS object string keys keep insertion order). -/
def insertGrouped (k : ℤ) (s : TelemetryLog) :
    List (ℤ × List TelemetryLog) → List (ℤ × List TelemetryLog)
  | [] => [(k, [s])]
  | g :: rest => if g.1 = k then (g.1, g.2 ++ [s]) :: rest else g :: insertGrouped k s rest

/-- groupedByDate of processAnalyticsData, as an association list in key
insertion order (order of first occurrence of each date in the input). -/
def groupedByDate (l : List TelemetryLog) : List (ℤ × List TelemetryLog) :=
  l.foldl (fun acc log => insertGrouped (dateKey log) log acc) []

/-- Insert a sample into an already sorted run, after every sample whose
timestamp is less than or equal to its own (stable). -/
def insertByTs (s : TelemetryLog) : List TelemetryLog → List TelemetryLog
  | [] => [s]
  | t :: rest =>
      if s.timestamp.getD 0 < t.timestamp.getD 0 then s :: t :: rest
      else t :: insertByTs s rest

/-- The sort (a,b) => a.timestamp - b.timestamp on a day's samples: a
stable ascending sort by timestamp, modelled as stable insertion sort
(JS Array.prototype.sort is stable, so any stable model is extensionally
the same). -/
def sortByTs (l : List TelemetryLog) : List TelemetryLog :=
  l.foldl (fun acc s => insertByTs s acc) []

/-- The trapezoidal loop of processAnalyticsData over one day's sorted
samples (i = 1 .. n-1): each consecutive pair contributes only when
0 < timeDiffHours < 1. -/
def dayEnergy : List TelemetryLog → ℚ
  | [] => 0
  | [_] => 0
  | prev :: curr :: rest =>
      (let timeDiffHours : ℚ := ((curr.timestamp.getD 0 - prev.timestamp.getD 0 : ℤ) : ℚ) / 3600
       if 0 < timeDiffHours ∧ timeDiffHours < 1 then
         ((curr.dc_power_w.getD 0) + (prev.dc_power_w.getD 0)) / 2 * timeDiffHours
       else 0)
      + dayEnergy (curr :: rest)

/-- Math.max(0, ...values). -/
def jsMax0 (l : List ℚ) : ℚ := l.foldl max 0

/-- One element of fullDailyStats. -/
structure DailyStat where
  date : ℤ
  totalGenerationWh : ℚ
  peakPowerW : ℚ
  maxVoltage : ℚ
  maxCurrent : ℚ
  avgPanelTemp : ℚ
  deriving DecidableEq

/-- The body of the fullDailyStats map for one date group.  Groups built
by groupedByDate are never empty, so the division in avgPanelTemp is
never 0/0 (which rationals send to 0 where JS would produce NaN). -/
def dailyStat (date : ℤ) (group : List TelemetryLog) : DailyStat :=
  let dayData := sortByTs group
  { date := date
    totalGenerationWh := dayEnergy dayData
    peakPowerW := jsMax0 (dayData.map (fun d => d.dc_power_w.getD 0))
    maxVoltage := jsMax0 (dayData.map (fun d => d.dc_voltage_v.getD 0))
    maxCurrent := jsMax0 (dayData.map (fun d => d.dc_current_ma.getD 0))
    avgPanelTemp := (dayData.map (fun d => d.panel_temp_c.getD 0)).sum / (dayData.length : ℚ) }

/-- The summary object of processAnalyticsData.  In
last7DaysGeneration the first component stands for the day being
labelled (the source formats it as a short date string; the epoch-day
number carries the same information). -/
structure Summary where
  totalKwh : ℚ
  avgDailyWh : ℚ
  peakGenerationW : ℚ
  last7DaysGeneration : List (ℤ × ℚ)
  deriving DecidableEq

/-- The value returned by processAnalyticsData when it is not null. -/
structure AnalyticsResult where
  summary : Summary
  dailyStats : List DailyStat
  deriving DecidableEq

/-- The window filter on daily stats: new Date(stat.date + "T00:00:00")
is the day's midnight (UTC environment assumed), compared against
subDays(endDate, numDays). -/
def inWindow (now numDays : ℤ) (stat : DailyStat) : Bool :=
  decide (now - numDays * 86400 ≤ stat.date * 86400)

/-- processAnalyticsData of data.js.  A null result is modelled as none.
The JS guard (!data || data.length < 2) reduces to the length test on a
list model (a null array has no list counterpart and an empty array is
truthy in JS, so it too falls through to the length test). -/
def processAnalyticsData (now : ℤ) (data : List (Option TelemetryLog)) (numDays : ℤ) :
    Option AnalyticsResult :=
  if data.length < 2 then none
  else
    let grouped := groupedByDate (relevantData now data)
    let fullDailyStats := grouped.map (fun g => dailyStat g.1 g.2)
    if fullDailyStats.length = 0 then none
    else
      let summaryStats := fullDailyStats.filter (inWindow now numDays)
      let totalGenerationWh := (summaryStats.map DailyStat.totalGenerationWh).sum
      let avgDailyWh :=
        if 0 < summaryStats.length then totalGenerationWh / (summaryStats.length : ℚ) else 0
      some
        { summary :=
            { totalKwh := totalGenerationWh / 1000
              avgDailyWh := avgDailyWh
              peakGenerationW := jsMax0 (summaryStats.map DailyStat.peakPowerW)
              last7DaysGeneration :=
                ((summaryStats.take 7).map (fun d => (d.date, d.totalGenerationWh))).reverse }
          dailyStats := fullDailyStats }

/-- Modelled from the spec: the trapezoidal total as the spec words it —
the sum over consecutive pairs (prev, curr) of (curr.power + prev.power)/2
times dtHours, restricted to pairs with 0 < dtHours < 1, powers defaulted
to 0 when absent.  Used to compare the source loop against the spec. -/
def trapezoidSpecSum (l : List TelemetryLog) : ℚ :=
  ((l.zip l.tail).map (fun pc =>
    let dt : ℚ := ((pc.2.timestamp.getD 0 - pc.1.timestamp.getD 0 : ℤ) : ℚ) / 3600
    if 0 < dt ∧ dt < 1 then
      ((pc.2.dc_power_w.getD 0) + (pc.1.dc_power_w.getD 0)) / 2 * dt
    else 0)).sum

/-- Modelled from the spec: the arithmetic mean of panel_temp_c over
exactly the samples whose temperature is non-null, 0 when there is none.
Used to compare the source's average against the spec. -/
def specAvgPanelTemp (l : List TelemetryLog) : ℚ :=
  let temps := l.filterMap (fun s => s.panel_temp_c)
  if temps.length = 0 then 0 else temps.sum / (temps.length : ℚ)

/-- Convenience constructor for a sample carrying only a timestamp and a
power reading. -/
def mkLog (t : ℤ) (p : ℚ) : TelemetryLog :=
  { timestamp := some t, dc_power_w := some p, dc_voltage_v := none,
    dc_current_ma := none, panel_temp_c := none }

/-- A record with every field absent (null/undefined in the source JSON). -/
def blankLog : TelemetryLog :=
  { timestamp := none, dc_power_w := none, dc_voltage_v := none,
    dc_current_ma := none, panel_temp_c := none }

/-- Convenience constructor for a sample carrying a timestamp and an
optional panel temperature. -/
def mkLogT (t : ℤ) (tempC : Option ℚ) : TelemetryLog :=
  { timestamp := some t, dc_power_w := none, dc_voltage_v := none,
    dc_current_ma := none, panel_temp_c := tempC }

/-- Comparison by timestamp used to speak about sorted sample runs. -/
abbrev tsLE (a b : TelemetryLog) : Prop :=
  a.timestamp.getD 0 ≤ b.timestamp.getD 0

/-- Every anchor strictly advances the carried lower voltage, so the
interpolation never divides by zero (holds for voltageMap). -/
def anchorsOK : ℚ → List (ℚ × ℚ) → Prop
  | _, [] => True
  | lv, (uv, _) :: rest => uv - lv ≠ 0 ∧ anchorsOK uv rest

/-- Two samples on calendar day 10, inside the 34-day fetch range of
now = day 40, but older than the 7-day summary window. -/
def c2Data : List (Option TelemetryLog) :=
  [some (mkLog (10 * 86400 + 100) 0), some (mkLog (10 * 86400 + 200) 0)]

/-- Three timestamped samples: one on day 0 (outside the 34-day fetch
range of now = day 40) and two on day 39 (inside it). -/
def c3Data : List (Option TelemetryLog) :=
  [some (mkLog 100 0), some (mkLog (40 * 86400 - 50) 0), some (mkLog (40 * 86400 - 60) 0)]

/-- One sample on each of the calendar days 33 .. 40, in ascending
timestamp order; with now = day 40 and a 7-day window all eight days pass
the window filter. -/
def c4Data : List (Option TelemetryLog) :=
  [some (mkLog (33 * 86400) 0), some (mkLog (34 * 86400) 0), some (mkLog (35 * 86400) 0),
   some (mkLog (36 * 86400) 0), some (mkLog (37 * 86400) 0), some (mkLog (38 * 86400) 0),
   some (mkLog (39 * 86400) 0), some (mkLog (40 * 86400) 0)]

/-- A one-day group with one real temperature reading and one null one. -/
def c5Group : List TelemetryLog :=
  [mkLogT 0 (some 10), mkLogT 60 none]

/-- Two days of generation (100 Wh on day 5, 50 Wh on day 9) inside a
7-day window ending at now = day 10. -/
def c10Data : List (Option TelemetryLog) :=
  [some (mkLog (5 * 86400) 200), some (mkLog (5 * 86400 + 1800) 200),
   some (mkLog (9 * 86400) 100), some (mkLog (9 * 86400 + 1800) 100)]

/-- An all-zero daily record for a given date. -/
def zeroStat (d : ℤ) : DailyStat :=
  { date := d, totalGenerationWh := 0, peakPowerW := 0, maxVoltage := 0,
    maxCurrent := 0, avgPanelTemp := 0 }

/-- The value processAnalyticsData returns on c2Data at now = day 40. -/
def c2Result : AnalyticsResult :=
  { summary := { totalKwh := 0, avgDailyWh := 0, peakGenerationW := 0,
                 last7DaysGeneration := [] },
    dailyStats := [zeroStat 10] }

/-- The value processAnalyticsData returns on c3Data at now = day 40. -/
def c3Result : AnalyticsResult :=
  { summary := { totalKwh := 0, avgDailyWh := 0, peakGenerationW := 0,
                 last7DaysGeneration := [(39, 0)] },
    dailyStats := [zeroStat 39] }

/-- The value processAnalyticsData returns on c4Data at now = day 40. -/
def c4Result : AnalyticsResult :=
  { summary := { totalKwh := 0, avgDailyWh := 0, peakGenerationW := 0,
                 last7DaysGeneration :=
                   [(39, 0), (38, 0), (37, 0), (36, 0), (35, 0), (34, 0), (33, 0)] },
    dailyStats := [zeroStat 33, zeroStat 34, zeroStat 35, zeroStat 36, zeroStat 37,
                   zeroStat 38, zeroStat 39, zeroStat 40] }

/-- c4Data written in reverse order (most recent sample first). -/
def c4DataRev : List (Option TelemetryLog) :=
  [some (mkLog (40 * 86400) 0), some (mkLog (39 * 86400) 0), some (mkLog (38 * 86400) 0),
   some (mkLog (37 * 86400) 0), some (mkLog (36 * 86400) 0), some (mkLog (35 * 86400) 0),
   some (mkLog (34 * 86400) 0), some (mkLog (33 * 86400) 0)]

/-- The value processAnalyticsData returns on c4DataRev at now = day 40. -/
def c4RevResult : AnalyticsResult :=
  { summary := { totalKwh := 0, avgDailyWh := 0, peakGenerationW := 0,
                 last7DaysGeneration :=
                   [(34, 0), (35, 0), (36, 0), (37, 0), (38, 0), (39, 0), (40, 0)] },
    dailyStats := [zeroStat 40, zeroStat 39, zeroStat 38, zeroStat 37, zeroStat 36,
                   zeroStat 35, zeroStat 34, zeroStat 33] }

/-- The value processAnalyticsData returns on c10Data at now = day 10. -/
def c10Result : AnalyticsResult :=
  { summary := { totalKwh := 3 / 20, avgDailyWh := 75, peakGenerationW := 200,
                 last7DaysGeneration := [(9, 50), (5, 100)] },
    dailyStats := [{ date := 5, totalGenerationWh := 100, peakPowerW := 200, maxVoltage := 0,
                     maxCurrent := 0, avgPanelTemp := 0 },
                   { date := 9, totalGenerationWh := 50, peakPowerW := 100, maxVoltage := 0,
                     maxCurrent := 0, avgPanelTemp := 0 }] }

/-! Lemmas about the voltage-to-SOC mapper. -/

lemma jmin_fin (a b : ℚ) : jmin (JSNum.fin a) (JSNum.fin b) = JSNum.fin (min a b) := by
  by_cases h : a < b
  · simp [jmin, jlt, h, min_eq_left h.le]
  · simp [jmin, jlt, h, min_eq_right (not_lt.mp h)]

lemma jmax_fin (a b : ℚ) : jmax (JSNum.fin a) (JSNum.fin b) = JSNum.fin (max a b) := by
  by_cases h : b < a
  · simp [jmax, jlt, h, max_eq_left h.le]
  · simp [jmax, jlt, h, max_eq_right (not_lt.mp h)]

lemma interpLoopJS_fin :
    ∀ (l : List (ℚ × ℚ)) (lower : ℚ × ℚ) (v : ℚ), anchorsOK lower.1 l →
      interpLoopJS (JSNum.fin v) lower l = JSNum.fin (interpLoop v lower l) := by
  intro l
  induction l with
  | nil => intro lower v _; rfl
  | cons p rest ih =>
      rcases p with ⟨uv, us⟩
      rintro ⟨lv, ls⟩ v h
      obtain ⟨hne, hrest⟩ : uv - lv ≠ 0 ∧ anchorsOK uv rest := h
      by_cases hv : v < uv
      · simp [interpLoopJS, interpLoop, jlt, hv, jsub, jdiv, hne, jmul, jadd, jmin_fin, jmax_fin]
      · simpa [interpLoopJS, interpLoop, jlt, hv] using ih (uv, us) v hrest

lemma anchorsOK_voltageMap : anchorsOK ((11.6 : ℚ), (0 : ℚ)).1 voltageMap.tail := by
  norm_num [voltageMap, anchorsOK]

lemma getBatterySOC_fin (v : ℚ) :
    getBatterySOC (some (JSNum.fin v)) = JSNum.fin (socFin v) := by
  by_cases h1 : (12.7 : ℚ) ≤ v
  · simp [getBatterySOC, socFin, jge, h1]
  · by_cases h2 : v ≤ (11.6 : ℚ)
    · simp [getBatterySOC, socFin, jge, jle, h1, h2]
    · simp [getBatterySOC, socFin, jge, jle, h1, h2,
        interpLoopJS_fin voltageMap.tail (11.6, 0) v anchorsOK_voltageMap]

lemma socFin_eq_clamp (v : ℚ) : socFin v = min 100 (max 0 (socRaw v)) := by
  rw [socFin, socRaw]
  simp only [voltageMap, List.tail_cons, interpLoop]
  split_ifs <;> try rfl
  all_goals try (exfalso; linarith)
  · -- 12.7 <= v : the raw value is at least 100
    have e : (70 + (v - 12.4) / (12.7 - 12.4) * (100 - 70) : ℚ) = 70 + (v - 12.4) * 100 := by
      ring
    have hX : (100 : ℚ) ≤ 70 + (v - 12.4) / (12.7 - 12.4) * (100 - 70) := by
      rw [e]; linarith
    rw [max_eq_right (le_trans (by norm_num) hX), min_eq_left hX]
  · -- v <= 11.6 : the raw value is at most 0
    have e : (0 + (v - 11.6) / (11.8 - 11.6) * (20 - 0) : ℚ) = (v - 11.6) * 100 := by ring
    have hX : (0 + (v - 11.6) / (11.8 - 11.6) * (20 - 0) : ℚ) ≤ 0 := by
      rw [e]; nlinarith
    rw [max_eq_left hX, min_eq_right (by norm_num)]

lemma socRaw_mono {v1 v2 : ℚ} (h : v1 ≤ v2) : socRaw v1 ≤ socRaw v2 := by
  rw [socRaw, socRaw]
  split_ifs <;> (ring_nf; linarith)

lemma socFin_mono {v1 v2 : ℚ} (h : v1 ≤ v2) : socFin v1 ≤ socFin v2 := by
  rw [socFin_eq_clamp, socFin_eq_clamp]
  exact min_le_min le_rfl (max_le_max le_rfl (socRaw_mono h))

/-! Lemmas about the stable sort by timestamp. -/

lemma insertByTs_perm (x : TelemetryLog) :
    ∀ l : List TelemetryLog, (insertByTs x l).Perm (x :: l) := by
  intro l
  induction l with
  | nil => exact List.Perm.refl _
  | cons t rest ih =>
      rw [insertByTs]
      by_cases h : x.timestamp.getD 0 < t.timestamp.getD 0
      · rw [if_pos h]
      · rw [if_neg h]
        exact (ih.cons t).trans (List.Perm.swap x t rest)

lemma sortFold_perm :
    ∀ (l acc : List TelemetryLog),
      (l.foldl (fun a s => insertByTs s a) acc).Perm (acc ++ l) := by
  intro l
  induction l with
  | nil => intro acc; simp
  | cons x rest ih =>
      intro acc
      rw [List.foldl_cons]
      refine (ih (insertByTs x acc)).trans ?_
      refine (((insertByTs_perm x acc).append_right rest).trans ?_)
      exact List.perm_middle.symm

lemma sortByTs_perm (l : List TelemetryLog) : (sortByTs l).Perm l := by
  simpa using sortFold_perm l []

lemma insertByTs_append (x : TelemetryLog) :
    ∀ l : List TelemetryLog, (∀ t ∈ l, tsLE t x) → insertByTs x l = l ++ [x] := by
  intro l
  induction l with
  | nil => intro _; rfl
  | cons t rest ih =>
      intro h
      have ht : tsLE t x := h t (List.mem_cons_self t rest)
      rw [insertByTs, if_neg (not_lt.mpr ht), ih (fun u hu => h u (List.mem_cons_of_mem t hu))]
      rfl

lemma sortByTs_sorted_id : ∀ l : List TelemetryLog, l.Sorted tsLE → sortByTs l = l := by
  intro l
  induction l using List.reverseRecOn with
  | nil => intro _; rfl
  | append_singleton ys x ih =>
      intro hs
      have hparts := List.pairwise_append.mp hs
      have hys : ys.Sorted tsLE := hparts.1
      have hall : ∀ t ∈ ys, tsLE t x := fun t ht => hparts.2.2 t ht x (List.mem_singleton_self x)
      rw [sortByTs, List.foldl_append]
      show insertByTs x (sortByTs ys) = ys ++ [x]
      rw [ih hys]
      exact insertByTs_append x ys hall

/-! Lemmas about folded maxima. -/

lemma foldr_max_swap (x a : ℚ) :
    ∀ xs : List ℚ, xs.foldr max (max a x) = max x (xs.foldr max a) := by
  intro xs
  induction xs with
  | nil => exact max_comm a x
  | cons y ys ih => simp only [List.foldr_cons, ih]; rw [max_left_comm]

lemma foldl_max_eq_foldr : ∀ (xs : List ℚ) (a : ℚ), xs.foldl max a = xs.foldr max a := by
  intro xs
  induction xs with
  | nil => intro a; rfl
  | cons y ys ih =>
      intro a
      simp only [List.foldl_cons, List.foldr_cons]
      rw [ih, foldr_max_swap]

lemma foldr_max_perm {l1 l2 : List ℚ} (h : l1.Perm l2) (a : ℚ) :
    l1.foldr max a = l2.foldr max a := by
  induction h with
  | nil => rfl
  | cons x _ ih => simp only [List.foldr_cons, ih]
  | swap x y l => simp only [List.foldr_cons]; rw [max_left_comm]
  | trans _ _ ih1 ih2 => rw [ih1, ih2]

lemma jsMax0_of_perm {l1 l2 : List ℚ} (h : l1.Perm l2) : jsMax0 l1 = l2.foldr max 0 := by
  rw [jsMax0, foldl_max_eq_foldr, foldr_max_perm h]

/-! Lemmas about grouping by calendar date. -/

lemma keys_insertGrouped (k : ℤ) (s : TelemetryLog) :
    ∀ acc : List (ℤ × List TelemetryLog),
      (insertGrouped k s acc).map Prod.fst =
        if k ∈ acc.map Prod.fst then acc.map Prod.fst else acc.map Prod.fst ++ [k] := by
  intro acc
  induction acc with
  | nil => simp [insertGrouped]
  | cons g rest ih =>
      rw [insertGrouped]
      by_cases h : g.1 = k
      · rw [if_pos h, if_pos]
        · simp
        · exact List.mem_cons.mpr (Or.inl h.symm)
      · rw [if_neg h]
        simp only [List.map_cons, ih]
        by_cases hk : k ∈ rest.map Prod.fst
        · rw [if_pos hk, if_pos (List.mem_cons_of_mem _ hk)]
        · rw [if_neg hk, if_neg, List.cons_append]
          intro hmem
          rcases List.mem_cons.mp hmem with h1 | h1
          · exact h h1.symm
          · exact hk h1

lemma mem_keys_groupFold (d : ℤ) :
    ∀ (l : List TelemetryLog) (acc : List (ℤ × List TelemetryLog)),
      (d ∈ ((l.foldl (fun a log => insertGrouped (dateKey log) log a) acc).map Prod.fst)) ↔
        d ∈ acc.map Prod.fst ∨ ∃ s ∈ l, dateKey s = d := by
  intro l
  induction l with
  | nil => intro acc; simp
  | cons x rest ih =>
      intro acc
      rw [List.foldl_cons, ih, keys_insertGrouped]
      by_cases h : dateKey x ∈ acc.map Prod.fst
      · rw [if_pos h]
        constructor
        · rintro (ha | ⟨s, hsr, hsd⟩)
          · exact Or.inl ha
          · exact Or.inr ⟨s, List.mem_cons_of_mem x hsr, hsd⟩
        · rintro (ha | ⟨s, hsm, hsd⟩)
          · exact Or.inl ha
          · rcases List.mem_cons.mp hsm with rfl | hsr
            · exact Or.inl (hsd ▸ h)
            · exact Or.inr ⟨s, hsr, hsd⟩
      · rw [if_neg h]
        constructor
        · rintro (ha | ⟨s, hsr, hsd⟩)
          · rcases List.mem_append.mp ha with ha | ha
            · exact Or.inl ha
            · exact Or.inr ⟨x, List.mem_cons_self x rest, (List.mem_singleton.mp ha).symm⟩
          · exact Or.inr ⟨s, List.mem_cons_of_mem x hsr, hsd⟩
        · rintro (ha | ⟨s, hsm, hsd⟩)
          · exact Or.inl (List.mem_append.mpr (Or.inl ha))
          · rcases List.mem_cons.mp hsm with rfl | hsr
            · exact Or.inl (List.mem_append.mpr (Or.inr (List.mem_singleton.mpr hsd.symm)))
            · exact Or.inr ⟨s, hsr, hsd⟩

lemma nodup_keys_groupFold :
    ∀ (l : List TelemetryLog) (acc : List (ℤ × List TelemetryLog)),
      (acc.map Prod.fst).Nodup →
      ((l.foldl (fun a log => insertGrouped (dateKey log) log a) acc).map Prod.fst).Nodup := by
  intro l
  induction l with
  | nil => intro acc h; exact h
  | cons x rest ih =>
      intro acc h
      rw [List.foldl_cons]
      apply ih
      rw [keys_insertGrouped]
      by_cases hk : dateKey x ∈ acc.map Prod.fst
      · rw [if_pos hk]; exact h
      · rw [if_neg hk]
        refine List.nodup_append.mpr ⟨h, List.nodup_singleton _, ?_⟩
        intro a ha hb
        rw [List.mem_singleton.mp hb] at ha
        exact hk ha

lemma mem_insertGrouped_members (k : ℤ) (x : TelemetryLog) :
    ∀ (acc : List (ℤ × List TelemetryLog)) (g : ℤ × List TelemetryLog) (s : TelemetryLog),
      g ∈ insertGrouped k x acc → s ∈ g.2 → s = x ∨ ∃ g0 ∈ acc, s ∈ g0.2 := by
  intro acc
  induction acc with
  | nil =>
      intro g s hg hs
      rw [insertGrouped] at hg
      rcases List.mem_singleton.mp hg with rfl
      exact Or.inl (List.mem_singleton.mp hs)
  | cons g0 rest ih =>
      rw [insertGrouped]
      by_cases h : g0.1 = k
      · rw [if_pos h]
        intro g s hg hs
        rcases List.mem_cons.mp hg with rfl | hgr
        · rcases List.mem_append.mp hs with hs1 | hs1
          · exact Or.inr ⟨g0, List.mem_cons_self g0 rest, hs1⟩
          · exact Or.inl (List.mem_singleton.mp hs1)
        · exact Or.inr ⟨g, List.mem_cons_of_mem g0 hgr, hs⟩
      · rw [if_neg h]
        intro g s hg hs
        rcases List.mem_cons.mp hg with rfl | hgr
        · exact Or.inr ⟨g, List.mem_cons_self g rest, hs⟩
        · rcases ih g s hgr hs with h1 | ⟨g1, hg1, hs1⟩
          · exact Or.inl h1
          · exact Or.inr ⟨g1, List.mem_cons_of_mem g0 hg1, hs1⟩

lemma mem_groupFold_members :
    ∀ (l : List TelemetryLog) (acc : List (ℤ × List TelemetryLog))
      (g : ℤ × List TelemetryLog) (s : TelemetryLog),
      g ∈ (l.foldl (fun a log => insertGrouped (dateKey log) log a) acc) → s ∈ g.2 →
        (∃ g0 ∈ acc, s ∈ g0.2) ∨ s ∈ l := by
  intro l
  induction l with
  | nil => intro acc g s hg hs; exact Or.inl ⟨g, hg, hs⟩
  | cons x rest ih =>
      intro acc g s hg hs
      rw [List.foldl_cons] at hg
      rcases ih (insertGrouped (dateKey x) x acc) g s hg hs with ⟨g0, hg0, hs0⟩ | hmem
      · rcases mem_insertGrouped_members (dateKey x) x acc g0 s hg0 hs0 with rfl | ⟨g1, hg1, hs1⟩
        · exact Or.inr (List.mem_cons_self s rest)
        · exact Or.inl ⟨g1, hg1, hs1⟩
      · exact Or.inr (List.mem_cons_of_mem x hmem)

lemma insertGrouped_ne_nil (k : ℤ) (x : TelemetryLog) :
    ∀ acc : List (ℤ × List TelemetryLog), insertGrouped k x acc ≠ [] := by
  intro acc
  cases acc with
  | nil => simp [insertGrouped]
  | cons g rest =>
      rw [insertGrouped]
      by_cases h : g.1 = k
      · rw [if_pos h]; exact List.cons_ne_nil _ _
      · rw [if_neg h]; exact List.cons_ne_nil _ _

lemma groupFold_ne_nil :
    ∀ (l : List TelemetryLog) (acc : List (ℤ × List TelemetryLog)),
      acc ≠ [] → l.foldl (fun a log => insertGrouped (dateKey log) log a) acc ≠ [] := by
  intro l
  induction l with
  | nil => intro acc h; exact h
  | cons x rest ih =>
      intro acc _
      rw [List.foldl_cons]
      exact ih _ (insertGrouped_ne_nil (dateKey x) x acc)

lemma groupedByDate_eq_nil_iff (l : List TelemetryLog) : groupedByDate l = [] ↔ l = [] := by
  constructor
  · intro h
    cases l with
    | nil => rfl
    | cons x rest =>
        exfalso
        apply groupFold_ne_nil rest (insertGrouped (dateKey x) x []) (insertGrouped_ne_nil _ _ _)
        simpa [groupedByDate] using h
  · intro h; rw [h]; rfl

/-! Lemmas about the relevance filter. -/

lemma mem_relevantData (now : ℤ) (data : List (Option TelemetryLog)) (log : TelemetryLog) :
    log ∈ relevantData now data ↔
      some log ∈ data ∧ ∃ t : ℤ, log.timestamp = some t ∧ now - 34 * 86400 ≤ t ∧ t ≤ now := by
  rw [relevantData, List.mem_filterMap]
  constructor
  · rintro ⟨e, he, hfe⟩
    rcases e with _ | l'
    · simp at hfe
    · dsimp only at hfe
      rcases hts : l'.timestamp with _ | t
      · rw [hts] at hfe; simp at hfe
      · rw [hts] at hfe
        dsimp only at hfe
        by_cases hc : now - 34 * 86400 ≤ t ∧ t ≤ now
        · rw [if_pos hc] at hfe
          have : l' = log := Option.some.inj hfe
          subst this
          exact ⟨he, t, hts, hc⟩
        · rw [if_neg hc] at hfe; simp at hfe
  · rintro ⟨hmem, t, hts, h1, h2⟩
    refine ⟨some log, hmem, ?_⟩
    dsimp only
    rw [hts]
    dsimp only
    exact if_pos ⟨h1, h2⟩

/-! Lemmas about the trapezoidal loop and the pipeline result shape. -/

lemma dayEnergy_eq_trapezoidSpecSum : ∀ l : List TelemetryLog, dayEnergy l = trapezoidSpecSum l := by
  intro l
  induction l with
  | nil => rfl
  | cons a t ih =>
      cases t with
      | nil => rfl
      | cons b rest =>
          rw [dayEnergy, ih]
          simp only [trapezoidSpecSum, List.tail_cons, List.zip_cons_cons, List.map_cons,
            List.sum_cons]

lemma process_eq_none_iff (now : ℤ) (data : List (Option TelemetryLog)) (numDays : ℤ) :
    processAnalyticsData now data numDays = none ↔
      data.length < 2 ∨ relevantData now data = [] := by
  rw [processAnalyticsData]
  by_cases h1 : data.length < 2
  · simp [h1]
  · rw [if_neg h1]
    by_cases h2 : relevantData now data = []
    · simp [h1, h2, groupedByDate]
    · have hne : groupedByDate (relevantData now data) ≠ [] :=
        fun hh => h2 ((groupedByDate_eq_nil_iff _).mp hh)
      simp [h1, h2, hne]

lemma process_some_parts (now : ℤ) (data : List (Option TelemetryLog)) (numDays : ℤ)
    (r : AnalyticsResult) (h : processAnalyticsData now data numDays = some r) :
    r.dailyStats = (groupedByDate (relevantData now data)).map (fun g => dailyStat g.1 g.2) ∧
    r.summary.last7DaysGeneration =
      (((r.dailyStats.filter (inWindow now numDays)).take 7).map
        (fun d => (d.date, d.totalGenerationWh))).reverse ∧
    r.summary.avgDailyWh =
      (if 0 < (r.dailyStats.filter (inWindow now numDays)).length then
        ((r.dailyStats.filter (inWindow now numDays)).map DailyStat.totalGenerationWh).sum /
          ((r.dailyStats.filter (inWindow now numDays)).length : ℚ)
       else 0) ∧
    r.summary.totalKwh =
      ((r.dailyStats.filter (inWindow now numDays)).map DailyStat.totalGenerationWh).sum / 1000 ∧
    r.summary.peakGenerationW =
      jsMax0 ((r.dailyStats.filter (inWindow now numDays)).map DailyStat.peakPowerW) := by
  rw [processAnalyticsData] at h
  by_cases h1 : data.length < 2
  · rw [if_pos h1] at h; exact absurd h (by simp)
  · rw [if_neg h1] at h
    by_cases h2 : ((groupedByDate (relevantData now data)).map
        (fun g => dailyStat g.1 g.2)).length = 0
    · rw [if_pos h2] at h; exact absurd h (by simp)
    · rw [if_neg h2] at h
      have hr := Option.some.inj h
      subst hr
      exact ⟨rfl, rfl, rfl, rfl, rfl⟩

/-- C7: for finite voltages the SOC mapper returns 100 at or above 12.7 V,
0 at or below 11.6 V, always lies in [0, 100], and is monotonically
non-decreasing; socFin is the finite restriction of getBatterySOC, tied to
it by the first conjunct. -/
theorem C7_soc_bounds_monotone :
    (∀ v : ℚ, getBatterySOC (some (JSNum.fin v)) = JSNum.fin (socFin v)) ∧
    (∀ v : ℚ, 12.7 ≤ v → socFin v = 100) ∧
    (∀ v : ℚ, v ≤ 11.6 → socFin v = 0) ∧
    (∀ v : ℚ, 0 ≤ socFin v ∧ socFin v ≤ 100) ∧
    (∀ v1 v2 : ℚ, v1 ≤ v2 → socFin v1 ≤ socFin v2) := by
  refine ⟨getBatterySOC_fin, ?_, ?_, ?_, ?_⟩
  · intro v h; rw [socFin, if_pos h]
  · intro v h
    rw [socFin, if_neg (by linarith), if_pos h]
  · intro v
    rw [socFin_eq_clamp]
    exact ⟨le_min (by norm_num) (le_max_left 0 _), min_le_left _ _⟩
  · intro v1 v2 h; exact socFin_mono h

/-- Witness for C7 at concrete voltages. -/
theorem C7_witness :
    socFin 13 = 100 ∧ socFin 11 = 0 ∧ (0 ≤ socFin 12 ∧ socFin 12 ≤ 100) ∧
      socFin 12 ≤ socFin (12.3 : ℚ) :=
  ⟨C7_soc_bounds_monotone.2.1 13 (by norm_num),
   C7_soc_bounds_monotone.2.2.1 11 (by norm_num),
   C7_soc_bounds_monotone.2.2.2.1 12,
   C7_soc_bounds_monotone.2.2.2.2 12 12.3 (by norm_num)⟩

/-- C6 counterexample: +Infinity is not a finite number, yet getBatterySOC
maps it to 100 and not 0 — it is of type number, so it passes the typeof
guard and then satisfies the voltage >= 12.7 test. -/
theorem C6_counterexample :
    getBatterySOC (some JSNum.posInf) = JSNum.fin 100 ∧ JSNum.fin 100 ≠ JSNum.fin 0 :=
  ⟨rfl, fun h => absurd (JSNum.fin.inj h) (by norm_num)⟩

/-- C6 (amended): the mapper returns 0 for non-number inputs, for NaN and
for -Infinity, but returns 100 for +Infinity. -/
theorem C6_nonfinite_amended :
    getBatterySOC none = JSNum.fin 0 ∧
    getBatterySOC (some JSNum.nan) = JSNum.fin 0 ∧
    getBatterySOC (some JSNum.negInf) = JSNum.fin 0 ∧
    getBatterySOC (some JSNum.posInf) = JSNum.fin 100 :=
  ⟨rfl, rfl, rfl, rfl⟩

/-- C1: over one day the computed totalGenerationWh equals the trapezoidal
sum over consecutive pairs restricted to 0 < dtHours < 1 (for a sorted
group this is the sum over the group as given); the spec's two worked
examples follow. -/
theorem C1_trapezoid_integration :
    (∀ l : List TelemetryLog, dayEnergy l = trapezoidSpecSum l) ∧
    (∀ (d : ℤ) (group : List TelemetryLog), group.Sorted tsLE →
        (dailyStat d group).totalGenerationWh = trapezoidSpecSum group) ∧
    dayEnergy [mkLog 0 0, mkLog 1800 100, mkLog 3600 200] = 100 ∧
    dayEnergy [mkLog 0 100, mkLog 7200 0] = 0 := by
  refine ⟨dayEnergy_eq_trapezoidSpecSum, ?_, ?_, ?_⟩
  · intro d group hs
    show dayEnergy (sortByTs group) = trapezoidSpecSum group
    rw [sortByTs_sorted_id group hs, dayEnergy_eq_trapezoidSpecSum]
  · norm_num [dayEnergy, mkLog]
  · norm_num [dayEnergy, mkLog]

/-- Witness for C1 on the spec's three-sample day. -/
theorem C1_witness :
    (dailyStat 0 [mkLog 0 0, mkLog 1800 100, mkLog 3600 200]).totalGenerationWh =
      trapezoidSpecSum [mkLog 0 0, mkLog 1800 100, mkLog 3600 200] :=
  C1_trapezoid_integration.2.1 0 _ (by norm_num [List.sorted_cons, tsLE, mkLog])

/-- C8: the day's peak power, voltage and current are folded maxima over
all samples with missing values defaulted to 0 and the result floored at
0; a single-sample day has zero energy but that sample's (non-negative)
power as its peak. -/
theorem C8_peaks_over_all_samples :
    (∀ (d : ℤ) (group : List TelemetryLog),
        (dailyStat d group).peakPowerW = (group.map (fun s => s.dc_power_w.getD 0)).foldr max 0 ∧
        (dailyStat d group).maxVoltage = (group.map (fun s => s.dc_voltage_v.getD 0)).foldr max 0 ∧
        (dailyStat d group).maxCurrent =
          (group.map (fun s => s.dc_current_ma.getD 0)).foldr max 0) ∧
    (∀ (d : ℤ) (s : TelemetryLog),
        (dailyStat d [s]).totalGenerationWh = 0 ∧
        (0 ≤ s.dc_power_w.getD 0 → (dailyStat d [s]).peakPowerW = s.dc_power_w.getD 0)) := by
  constructor
  · intro d group
    exact ⟨jsMax0_of_perm ((sortByTs_perm group).map _),
           jsMax0_of_perm ((sortByTs_perm group).map _),
           jsMax0_of_perm ((sortByTs_perm group).map _)⟩
  · intro d s
    refine ⟨rfl, fun h => ?_⟩
    show max 0 (s.dc_power_w.getD 0) = s.dc_power_w.getD 0
    exact max_eq_right h

/-- Witness for C8 on a one-sample day with power 5. -/
theorem C8_witness :
    (dailyStat 3 [mkLog 0 5]).totalGenerationWh = 0 ∧
    (dailyStat 3 [mkLog 0 5]).peakPowerW = (mkLog 0 5).dc_power_w.getD 0 :=
  ⟨(C8_peaks_over_all_samples.2 3 (mkLog 0 5)).1,
   (C8_peaks_over_all_samples.2 3 (mkLog 0 5)).2 (by norm_num [mkLog])⟩

/-- C5 counterexample: a day with one 10 degree reading and one null
reading averages to 5 in the pipeline (the null is coerced to 0 and
counted in the denominator), while the spec's mean over non-null
temperatures is 10. -/
theorem C5_counterexample :
    (dailyStat 0 c5Group).avgPanelTemp = 5 ∧ specAvgPanelTemp c5Group = 10 ∧ (5 : ℚ) ≠ 10 := by
  refine ⟨?_, ?_, by norm_num⟩
  · norm_num [dailyStat, c5Group, mkLogT, sortByTs, insertByTs]
  · norm_num [specAvgPanelTemp, c5Group, mkLogT, List.filterMap]

/-- C5 (amended): avgPanelTemp is the sum of the day's temperatures with
null readings coerced to 0, divided by the number of ALL samples of the
day — null temperatures do enter the mean as 0 readings. -/
theorem C5_avg_amended :
    ∀ (d : ℤ) (group : List TelemetryLog), group ≠ [] →
      (dailyStat d group).avgPanelTemp =
        (group.map (fun s => s.panel_temp_c.getD 0)).sum / (group.length : ℚ) := by
  intro d group _
  show ((sortByTs group).map (fun s => s.panel_temp_c.getD 0)).sum /
      (((sortByTs group).length : ℕ) : ℚ) = _
  rw [((sortByTs_perm group).map (fun s => s.panel_temp_c.getD 0)).sum_eq,
    (sortByTs_perm group).length_eq]

/-- Witness for C5 on the two-sample day of the counterexample. -/
theorem C5_witness :
    (dailyStat 0 c5Group).avgPanelTemp =
      (c5Group.map (fun s => s.panel_temp_c.getD 0)).sum / (c5Group.length : ℚ) :=
  C5_avg_amended 0 c5Group (by simp [c5Group])

/-- C9: the pipeline is a total function of its input snapshot; every
sample surviving the relevance filter carries a numeric in-range
timestamp, every sample inside any date group carries a numeric timestamp
(records without one are excluded before grouping), and a record with all
fields absent aggregates to all-zero statistics rather than an error. -/
theorem C9_dirty_input_safety :
    ∀ (now : ℤ) (data : List (Option TelemetryLog)) (numDays : ℤ),
      (∃ res : Option AnalyticsResult, processAnalyticsData now data numDays = res) ∧
      (∀ log ∈ relevantData now data,
          ∃ t : ℤ, log.timestamp = some t ∧ now - 34 * 86400 ≤ t ∧ t ≤ now) ∧
      (∀ g ∈ groupedByDate (relevantData now data), ∀ s ∈ g.2,
          ∃ t : ℤ, s.timestamp = some t) ∧
      (∀ d : ℤ, dailyStat d [blankLog] =
          { date := d, totalGenerationWh := 0, peakPowerW := 0, maxVoltage := 0,
            maxCurrent := 0, avgPanelTemp := 0 }) := by
  intro now data numDays
  refine ⟨⟨_, rfl⟩, ?_, ?_, ?_⟩
  · intro log hlog
    exact ((mem_relevantData now data log).mp hlog).2
  · intro g hg s hs
    rcases mem_groupFold_members (relevantData now data) [] g s hg hs with ⟨g0, hg0, _⟩ | hmem
    · exact absurd hg0 (List.not_mem_nil g0)
    · obtain ⟨_, t, hts, _, _⟩ := (mem_relevantData now data s).mp hmem
      exact ⟨t, hts⟩
  · intro d
    norm_num [dailyStat, blankLog, sortByTs, insertByTs, jsMax0, dayEnergy]

/-- Witness for C9: a sample kept by the filter at now = 5 has a numeric
in-range timestamp. -/
theorem C9_witness :
    ∃ t : ℤ, (mkLog 5 1).timestamp = some t ∧ (5 : ℤ) - 34 * 86400 ≤ t ∧ t ≤ 5 :=
  (C9_dirty_input_safety 5 [some (mkLog 5 1), some (mkLog 4 1)] 7).2.1 (mkLog 5 1)
    (by norm_num [relevantData, mkLog, List.filterMap])

/-- C2 counterexample: two samples on day 10 with now = day 40 — days with
data exist, but none falls inside the requested 7-day window; the result
is a zeroed WindowSummary with an empty series, not the null NoData
result the claim requires. -/
theorem C2_counterexample :
    processAnalyticsData (40 * 86400) c2Data 7 = some c2Result ∧
    processAnalyticsData (40 * 86400) c2Data 7 ≠ none := by
  have h : processAnalyticsData (40 * 86400) c2Data 7 = some c2Result := by
    norm_num [processAnalyticsData, c2Data, c2Result, zeroStat, relevantData, groupedByDate,
      insertGrouped, dateKey, dailyStat, sortByTs, insertByTs, dayEnergy, jsMax0, inWindow,
      mkLog, List.filterMap, Int.fdiv]
  exact ⟨h, by rw [h]; simp⟩

/-- C2 (amended): the null NoData result appears exactly when the input
has fewer than 2 entries or no usable sample lies in the trailing 34-day
fetch range; and whenever the result is defined and every day inside the
requested window has zero generation, the summary totals are zero (zero
generation is reported as a zeroed WindowSummary, never as NoData). -/
theorem C2_nodata_amended :
    (∀ (now : ℤ) (data : List (Option TelemetryLog)) (numDays : ℤ),
        processAnalyticsData now data numDays = none ↔
          data.length < 2 ∨ relevantData now data = []) ∧
    (∀ (now : ℤ) (data : List (Option TelemetryLog)) (numDays : ℤ) (r : AnalyticsResult),
        processAnalyticsData now data numDays = some r →
        (∀ st ∈ r.dailyStats.filter (inWindow now numDays), st.totalGenerationWh = 0) →
        r.summary.totalKwh = 0 ∧ r.summary.avgDailyWh = 0) := by
  refine ⟨process_eq_none_iff, ?_⟩
  intro now data numDays r h hz
  obtain ⟨-, -, havg, hkwh, -⟩ := process_some_parts now data numDays r h
  have hsum :
      ((r.dailyStats.filter (inWindow now numDays)).map DailyStat.totalGenerationWh).sum = 0 := by
    apply List.sum_eq_zero
    intro x hx
    rcases List.mem_map.mp hx with ⟨st, hst, rfl⟩
    exact hz st hst
  constructor
  · rw [hkwh, hsum]; norm_num
  · rw [havg, hsum]
    split_ifs with h0
    · simp
    · rfl

/-- Witness for C2 on the counterexample input, whose only day of data
lies outside the window. -/
theorem C2_witness :
    c2Result.summary.totalKwh = 0 ∧ c2Result.summary.avgDailyWh = 0 :=
  C2_nodata_amended.2 (40 * 86400) c2Data 7 c2Result
    (by norm_num [processAnalyticsData, c2Data, c2Result, zeroStat, relevantData, groupedByDate,
      insertGrouped, dateKey, dailyStat, sortByTs, insertByTs, dayEnergy, jsMax0, inWindow,
      mkLog, List.filterMap, Int.fdiv])
    (by intro st hst; simp [c2Result, zeroStat, inWindow, List.filter] at hst)

/-- C3 counterexample: the input holds a usable sample on calendar day 0
(timestamp 100), but with now = day 40 the pipeline creates a record only
for day 39 — a date present in the input gets no record, because the
relevance filter drops samples older than 34 days. -/
theorem C3_counterexample :
    (processAnalyticsData (40 * 86400) c3Data 7).map (fun r => r.dailyStats.map DailyStat.date) =
      some [39] ∧
    some (mkLog 100 0) ∈ c3Data ∧
    (mkLog 100 0).timestamp = some 100 ∧
    (100 : ℤ).fdiv 86400 = 0 ∧
    (0 : ℤ) ∉ [(39 : ℤ)] := by
  refine ⟨?_, by simp [c3Data], rfl, by decide, by decide⟩
  norm_num [processAnalyticsData, c3Data, relevantData, groupedByDate, insertGrouped, dateKey,
    dailyStat, sortByTs, insertByTs, dayEnergy, jsMax0, inWindow, mkLog, List.filterMap,
    Int.fdiv]

/-- C3 (amended): the result holds exactly one record per distinct UTC
calendar date among the usable samples whose timestamp lies in the
trailing 34-day fetch range ending at now, and no record for any other
date. -/
theorem C3_dates_amended :
    ∀ (now : ℤ) (data : List (Option TelemetryLog)) (numDays : ℤ) (r : AnalyticsResult),
      processAnalyticsData now data numDays = some r →
      (r.dailyStats.map DailyStat.date).Nodup ∧
      (∀ d : ℤ, d ∈ r.dailyStats.map DailyStat.date ↔
        ∃ log : TelemetryLog, some log ∈ data ∧
          ∃ t : ℤ, log.timestamp = some t ∧ now - 34 * 86400 ≤ t ∧ t ≤ now ∧
            t.fdiv 86400 = d) := by
  intro now data numDays r h
  obtain ⟨hds, -, -, -, -⟩ := process_some_parts now data numDays r h
  have hmapdate : r.dailyStats.map DailyStat.date =
      (groupedByDate (relevantData now data)).map Prod.fst := by
    rw [hds, List.map_map]; rfl
  constructor
  · rw [hmapdate]
    exact nodup_keys_groupFold (relevantData now data) [] (by simp)
  · intro d
    rw [hmapdate]
    constructor
    · intro hd
      rcases (mem_keys_groupFold d (relevantData now data) []).mp hd with h0 | ⟨s, hsl, hsd⟩
      · simp at h0
      · obtain ⟨hmem, t, hts, h1, h2⟩ := (mem_relevantData now data s).mp hsl
        refine ⟨s, hmem, t, hts, h1, h2, ?_⟩
        rw [← hsd]
        simp [dateKey, hts]
    · rintro ⟨log, hmem, t, hts, h1, h2, hd⟩
      apply (mem_keys_groupFold d (relevantData now data) []).mpr
      refine Or.inr ⟨log, (mem_relevantData now data log).mpr ⟨hmem, t, hts, h1, h2⟩, ?_⟩
      simp [dateKey, hts]
      exact hd

/-- Witness for C3 on the counterexample input: the produced record dates
are distinct. -/
theorem C3_witness :
    (c3Result.dailyStats.map DailyStat.date).Nodup :=
  (C3_dates_amended (40 * 86400) c3Data 7 c3Result
    (by norm_num [processAnalyticsData, c3Data, c3Result, zeroStat, relevantData, groupedByDate,
      insertGrouped, dateKey, dailyStat, sortByTs, insertByTs, dayEnergy, jsMax0, inWindow,
      mkLog, List.filterMap, Int.fdiv])).1

lemma c4_relevant : relevantData (40 * 86400) c4Data =
    [mkLog (33 * 86400) 0, mkLog (34 * 86400) 0, mkLog (35 * 86400) 0, mkLog (36 * 86400) 0,
     mkLog (37 * 86400) 0, mkLog (38 * 86400) 0, mkLog (39 * 86400) 0, mkLog (40 * 86400) 0] := by
  norm_num [relevantData, c4Data, mkLog, List.filterMap]

lemma c4_grouped : groupedByDate (relevantData (40 * 86400) c4Data) =
    [(33, [mkLog (33 * 86400) 0]), (34, [mkLog (34 * 86400) 0]), (35, [mkLog (35 * 86400) 0]),
     (36, [mkLog (36 * 86400) 0]), (37, [mkLog (37 * 86400) 0]), (38, [mkLog (38 * 86400) 0]),
     (39, [mkLog (39 * 86400) 0]), (40, [mkLog (40 * 86400) 0])] := by
  rw [c4_relevant]
  norm_num [groupedByDate, insertGrouped, dateKey, mkLog, Int.fdiv]

lemma c4_daily : (groupedByDate (relevantData (40 * 86400) c4Data)).map
      (fun g => dailyStat g.1 g.2) =
    [zeroStat 33, zeroStat 34, zeroStat 35, zeroStat 36, zeroStat 37, zeroStat 38, zeroStat 39,
     zeroStat 40] := by
  rw [c4_grouped]
  norm_num [dailyStat, zeroStat, sortByTs, insertByTs, dayEnergy, jsMax0, mkLog]

lemma c4_process : processAnalyticsData (40 * 86400) c4Data 7 = some c4Result := by
  have hlen : ¬ c4Data.length < 2 := by norm_num [c4Data]
  have hd := c4_daily
  norm_num at hd
  norm_num [processAnalyticsData, hlen, hd, c4Result, zeroStat, inWindow, jsMax0,
    List.filter_cons, List.sum_cons]

lemma c4rev_relevant : relevantData (40 * 86400) c4DataRev =
    [mkLog (40 * 86400) 0, mkLog (39 * 86400) 0, mkLog (38 * 86400) 0, mkLog (37 * 86400) 0,
     mkLog (36 * 86400) 0, mkLog (35 * 86400) 0, mkLog (34 * 86400) 0, mkLog (33 * 86400) 0] := by
  norm_num [relevantData, c4DataRev, mkLog, List.filterMap]

lemma c4rev_grouped : groupedByDate (relevantData (40 * 86400) c4DataRev) =
    [(40, [mkLog (40 * 86400) 0]), (39, [mkLog (39 * 86400) 0]), (38, [mkLog (38 * 86400) 0]),
     (37, [mkLog (37 * 86400) 0]), (36, [mkLog (36 * 86400) 0]), (35, [mkLog (35 * 86400) 0]),
     (34, [mkLog (34 * 86400) 0]), (33, [mkLog (33 * 86400) 0])] := by
  rw [c4rev_relevant]
  norm_num [groupedByDate, insertGrouped, dateKey, mkLog, Int.fdiv]

lemma c4rev_daily : (groupedByDate (relevantData (40 * 86400) c4DataRev)).map
      (fun g => dailyStat g.1 g.2) =
    [zeroStat 40, zeroStat 39, zeroStat 38, zeroStat 37, zeroStat 36, zeroStat 35, zeroStat 34,
     zeroStat 33] := by
  rw [c4rev_grouped]
  norm_num [dailyStat, zeroStat, sortByTs, insertByTs, dayEnergy, jsMax0, mkLog]

lemma c4rev_process : processAnalyticsData (40 * 86400) c4DataRev 7 = some c4RevResult := by
  have hlen : ¬ c4DataRev.length < 2 := by norm_num [c4DataRev]
  have hd := c4rev_daily
  norm_num at hd
  norm_num [processAnalyticsData, hlen, hd, c4RevResult, zeroStat, inWindow, jsMax0,
    List.filter_cons, List.sum_cons]

/-- C4 counterexample: eight days of data (33 .. 40) all inside the 7-day
window, samples supplied ascending.  The series is the days 39 down to 33
in descending order: it omits day 40 (the most recent day with data, which
does have a record), it is not ascending, and reversing the input order
yields a different series — so the series is supply-order dependent. -/
theorem C4_counterexample :
    (processAnalyticsData (40 * 86400) c4Data 7).map
        (fun r => r.summary.last7DaysGeneration.map Prod.fst) =
      some [39, 38, 37, 36, 35, 34, 33] ∧
    (processAnalyticsData (40 * 86400) c4Data.reverse 7).map
        (fun r => r.summary.last7DaysGeneration.map Prod.fst) =
      some [34, 35, 36, 37, 38, 39, 40] ∧
    (processAnalyticsData (40 * 86400) c4Data 7).map (fun r => r.dailyStats.map DailyStat.date) =
      some [33, 34, 35, 36, 37, 38, 39, 40] ∧
    (40 : ℤ) ∉ [(39 : ℤ), 38, 37, 36, 35, 34, 33] ∧
    ¬ List.Sorted (fun a b => a ≤ b) [(39 : ℤ), 38, 37, 36, 35, 34, 33] := by
  have hrev : c4Data.reverse = c4DataRev := by
    norm_num [c4Data, c4DataRev, List.reverse_cons]
  refine ⟨?_, ?_, ?_, by decide, by decide⟩
  · rw [c4_process]; norm_num [c4Result, zeroStat]
  · rw [hrev, c4rev_process]; norm_num [c4RevResult, zeroStat]
  · rw [c4_process]; norm_num [c4Result, zeroStat]

/-- C4 (amended): the series is the reverse of the first at most 7 window
days taken in the order of first appearance of each date in the raw input
(not necessarily the 7 most recent days), one entry per day with that
day's generation, dates pairwise distinct. -/
theorem C4_series_amended :
    ∀ (now : ℤ) (data : List (Option TelemetryLog)) (numDays : ℤ) (r : AnalyticsResult),
      processAnalyticsData now data numDays = some r →
      r.summary.last7DaysGeneration =
        (((r.dailyStats.filter (inWindow now numDays)).take 7).map
          (fun d => (d.date, d.totalGenerationWh))).reverse ∧
      (r.summary.last7DaysGeneration.map Prod.fst).Nodup := by
  intro now data numDays r h
  obtain ⟨hds, hser, -, -, -⟩ := process_some_parts now data numDays r h
  refine ⟨hser, ?_⟩
  have hnd : (r.dailyStats.map DailyStat.date).Nodup := by
    rw [hds, List.map_map]
    exact nodup_keys_groupFold (relevantData now data) [] (by simp)
  rw [hser, List.map_reverse, List.nodup_reverse, List.map_map]
  show (((r.dailyStats.filter (inWindow now numDays)).take 7).map DailyStat.date).Nodup
  refine List.Nodup.sublist ?_ hnd
  exact ((List.take_sublist 7 _).trans (List.filter_sublist _)).map _

/-- Witness for C4 on the counterexample input: the series dates are
pairwise distinct. -/
theorem C4_witness :
    (c4Result.summary.last7DaysGeneration.map Prod.fst).Nodup :=
  (C4_series_amended (40 * 86400) c4Data 7 c4Result c4_process).2

/-- C10: avgDailyWh divides the window total by the number of days with
data inside the window, not by windowDays; on a 7-day window holding only
two days of data (100 Wh and 50 Wh) the average is 75. -/
theorem C10_avg_per_days_with_data :
    (∀ (now : ℤ) (data : List (Option TelemetryLog)) (numDays : ℤ) (r : AnalyticsResult),
        processAnalyticsData now data numDays = some r →
        1 ≤ (r.dailyStats.filter (inWindow now numDays)).length →
        r.summary.avgDailyWh =
          ((r.dailyStats.filter (inWindow now numDays)).map DailyStat.totalGenerationWh).sum /
            (((r.dailyStats.filter (inWindow now numDays)).length : ℕ) : ℚ)) ∧
    (processAnalyticsData (10 * 86400) c10Data 7).map (fun r => r.summary.avgDailyWh) =
      some 75 := by
  constructor
  · intro now data numDays r h hlen
    obtain ⟨-, -, havg, -, -⟩ := process_some_parts now data numDays r h
    rw [havg, if_pos (by omega)]
  · norm_num [processAnalyticsData, c10Data, relevantData, groupedByDate, insertGrouped, dateKey,
      dailyStat, sortByTs, insertByTs, dayEnergy, jsMax0, inWindow, mkLog, List.filterMap,
      Int.fdiv]

/-- Witness for C10 on the two-day input. -/
theorem C10_witness :
    c10Result.summary.avgDailyWh =
      ((c10Result.dailyStats.filter (inWindow (10 * 86400) 7)).map
        DailyStat.totalGenerationWh).sum /
        (((c10Result.dailyStats.filter (inWindow (10 * 86400) 7)).length : ℕ) : ℚ) :=
  C10_avg_per_days_with_data.1 (10 * 86400) c10Data 7 c10Result
    (by norm_num [processAnalyticsData, c10Data, c10Result, relevantData, groupedByDate,
      insertGrouped, dateKey, dailyStat, sortByTs, insertByTs, dayEnergy, jsMax0, inWindow,
      mkLog, List.filterMap, Int.fdiv])
    (by norm_num [c10Result, inWindow, List.filter])
